import Mathlib

/-!
# Verification of the country-info-service aggregation layer

A shallow embedding of the Go sources of `country-info-service`:

* `utils/fetch_country.go` — `FetchCountryInfo`, `FetchCities`,
  `extractString`, `extractStringArray`;
* `utils` population file — `FetchCountryName`, `FetchPopulationData`;
* `handlers` — `CountryInfoHandler` / `PopulationHandler` parameter
  validation and error classification, `checkAPIHealth`.

Outbound HTTP calls are modelled by passing the upstream's outcome as an
explicit argument (`HttpResult`): a transport failure carrying the error
text of the Go `net/http` layer, or a response with a status code and a
body.  Reading and decoding a body is likewise an explicit outcome
(`BodyRead`).  Loosely-typed JSON payloads (`map[string]interface{}`)
are modelled by `JValue`; JSON numbers are modelled as integers, which
is faithful for every field the theorems below inspect (the code only
reads the `population` number, via a `float64` type assertion that
succeeds exactly on JSON numbers).  Go `int` arithmetic is modelled by
`Int`; Go `/` on `int` truncates toward zero, which is `Int.tdiv`.
Errors are modelled by `Except String`, carrying the exact message text
the Go code builds with `fmt.Errorf` (for a wrapped error `%w`, the text
of the wrapped error is appended to the prefix, which is what
`err.Error()` yields).
-/

set_option maxHeartbeats 1000000

/-! ## Go string and integer-parsing primitives -/

/-- Does the character list `l` contain `pat` as a contiguous run?
Mirrors Go `strings.Contains` (the strings involved are ASCII, so
byte-level and character-level containment agree). -/
def charsContains : List Char → List Char → Bool
  | l@(_ :: t), pat => pat.isPrefixOf l || charsContains t pat
  | [], pat => pat.isEmpty

/-- Go `strings.Contains s sub`. -/
def strContains (s sub : String) : Bool :=
  charsContains s.data sub.data

/-- Digit accumulator of decimal parsing: fails on the first
non-digit character. -/
def parseDigitsAux : List Char → Nat → Option Nat
  | [], acc => some acc
  | c :: cs, acc =>
    if c.isDigit then parseDigitsAux cs (acc * 10 + (c.toNat - '0'.toNat))
    else none

/-- Magnitude part of `strconv.Atoi`: at least one digit, all digits,
and the signed value must fit in a 64-bit `int`. -/
def atoiDigits (sign : Int) : List Char → Option Int
  | [] => none
  | ds =>
    match parseDigitsAux ds 0 with
    | none => none
    | some n =>
      let v : Int := sign * (n : Int)
      if v < -(2 ^ 63) ∨ 2 ^ 63 - 1 < v then none else some v

/-- Go `strconv.Atoi`: optional single leading `+` or `-`, then one or
more decimal digits, nothing else; the value must fit in `int64`. -/
def atoi (s : String) : Option Int :=
  match s.data with
  | '+' :: rest => atoiDigits 1 rest
  | '-' :: rest => atoiDigits (-1) rest
  | cs => atoiDigits 1 cs

/-- Character-level splitting on `-`: Go
`strings.Split(s, "-")` for the one-character separator used by the
handlers. -/
def splitDash : List Char → List (List Char)
  | [] => [[]]
  | '-' :: rest => [] :: splitDash rest
  | c :: rest =>
    match splitDash rest with
    | [] => [[c]]
    | g :: gs => (c :: g) :: gs

/-- Go `strings.Split(s, "-")`. -/
def goSplitDash (s : String) : List String :=
  (splitDash s.data).map fun l => ⟨l⟩

/-- Go `strings.ToUpper` (the inputs concerned are ASCII). -/
def goToUpper (s : String) : String :=
  ⟨s.data.map Char.toUpper⟩

/-! ## Loosely-typed JSON values (`map[string]interface{}`) -/

/-- A decoded JSON value as Go's `encoding/json` produces it into
`interface{}`.  Numbers are modelled as integers (see the header
comment). -/
inductive JValue where
  | jNull
  | jBool (b : Bool)
  | jNum (n : Int)
  | jStr (s : String)
  | jArr (elems : List JValue)
  | jObj (fields : List (String × JValue))

/-- A decoded JSON object (`map[string]interface{}`).  Keys are unique
in a Go map; lookup is modelled as first-match association-list
lookup. -/
abbrev JObj := List (String × JValue)

/-- Go map indexing `data[key]`: `none` when the key is absent. -/
def jLookup (data : JObj) (k : String) : Option JValue :=
  List.lookup k data

/-! ## Outbound HTTP call outcomes -/

/-- A received HTTP response: status code plus (an abstraction of) the
body. -/
structure HttpResponse (β : Type) where
  status : Nat
  body : β

/-- Outcome of one outbound HTTP call.  `fail` is a non-nil error from
`http.Get` / `client.Do` / `http.Post` (carrying that error's text,
which includes timeouts and connection refusals); `ok` is a received
response. -/
inductive HttpResult (β : Type) where
  | fail (errMsg : String)
  | ok (resp : HttpResponse β)

/-- Outcome of reading (`ioutil.ReadAll`) and then decoding
(`json.Unmarshal`) a response body into a typed value. -/
inductive BodyRead (α : Type) where
  | readErr (errMsg : String)
  | decodeErr (errMsg : String)
  | decoded (val : α)

/-! ## utils/fetch_country.go -/

/-- `CountryInfoResponse` of fetch_country.go.  The Go `languages` map
is modelled as an association list (Go map iteration order is
irrelevant to every property proved below). -/
structure CountryInfoResponse where
  name : String
  continent : String
  population : Int
  languages : List (String × String)
  borders : List String
  flag : String
  capital : String
  cities : List String

/-- The anonymous struct FetchCities decodes the cities API body into:
`{error bool; data []string}`. -/
structure CitiesApiResponse where
  error : Bool
  data : List String

/-- Inner loop of `extractString`: scan the (full) key list over a
nested map, returning the first value that exists and is a string;
a value that exists with a non-string type is skipped. -/
def extractStringNested (nestedMap : JObj) : List String → Option String
  | [] => none
  | k :: ks =>
    match jLookup nestedMap k with
    | some (.jStr s) => some s
    | _ => extractStringNested nestedMap ks

/-- Outer loop of `extractString` over the remaining keys; `keys` is
the full original key list, re-scanned by the nested loop. -/
def extractStringOuter (data : JObj) (keys : List String) : List String → Option String
  | [] => none
  | k :: ks =>
    match jLookup data k with
    | some (.jObj m) =>
      match extractStringNested m keys with
      | some s => some s
      | none => extractStringOuter data keys ks
    | some (.jStr s) => some s
    | some _ => extractStringOuter data keys ks
    | none => extractStringOuter data keys ks

/-- `extractString` of fetch_country.go: Go's `(string, bool)` result
is modelled as `Option String`. -/
def extractString (data : JObj) (keys : List String) : Option String :=
  extractStringOuter data keys keys

/-- Body of the loop in `extractStringArray`: keep the string items,
skip the rest. -/
def collectStrings : List JValue → List String
  | [] => []
  | .jStr s :: rest => s :: collectStrings rest
  | _ :: rest => collectStrings rest

/-- `extractStringArray` of fetch_country.go. -/
def extractStringArray (data : JObj) (key : String) : List String :=
  match jLookup data key with
  | some (.jArr arr) => collectStrings arr
  | _ => []

/-- Languages loop of `FetchCountryInfo`: keep the string-valued
entries of the `languages` object. -/
def collectLangs : List (String × JValue) → List (String × String)
  | [] => []
  | (abbr, .jStr lang) :: rest => (abbr, lang) :: collectLangs rest
  | _ :: rest => collectLangs rest

/-- `languages` extraction of `FetchCountryInfo` (empty map unless the
field is an object). -/
def extractLanguages (country : JObj) : List (String × String) :=
  match jLookup country "languages" with
  | some (.jObj langs) => collectLangs langs
  | _ => []

/-- `region` extraction of `FetchCountryInfo` ("Unknown" unless the
field is a string). -/
def extractRegion (country : JObj) : String :=
  match jLookup country "region" with
  | some (.jStr s) => s
  | _ => "Unknown"

/-- `capital` extraction of `FetchCountryInfo` ("N/A" unless the field
is a non-empty array whose first element is a string). -/
def extractCapital (country : JObj) : String :=
  match jLookup country "capital" with
  | some (.jArr (.jStr s :: _)) => s
  | _ => "N/A"

/-- `population` extraction of `FetchCountryInfo` (0 unless the field
is a JSON number; the Go code asserts `float64` and converts with
`int(...)`). -/
def extractPopulation (country : JObj) : Int :=
  match jLookup country "population" with
  | some (.jNum n) => n
  | _ => 0

/-- `flag` extraction of `FetchCountryInfo`: `extractString` on
`flags`/`svg`, ignoring the ok flag, so the Go zero value `""` remains
on failure. -/
def extractFlag (country : JObj) : String :=
  (extractString country ["flags", "svg"]).getD ""

/-- `FetchCities` of fetch_country.go.  `r` is the outcome of the POST
to the cities API.  (`http.NewRequest` with a constant method and valid
constant URL never returns an error, so that branch is not
reachable.) -/
def FetchCities (countryName : String) (limit : Int)
    (r : HttpResult (BodyRead CitiesApiResponse)) : Except String (List String) :=
  match r with
  | .fail e => .error ("failed to fetch cities: " ++ e)
  | .ok resp =>
    if resp.status ≠ 200 then
      .error ("cities API returned status " ++ toString resp.status)
    else
      match resp.body with
      | .readErr e => .error ("failed to read response: " ++ e)
      | .decodeErr e => .error ("failed to parse cities API response: " ++ e)
      | .decoded api =>
        if api.error then
          .error ("error fetching cities for country: " ++ countryName)
        else if (api.data.length : Int) > limit then
          .ok (api.data.take limit.toNat)
        else
          .ok api.data

/-- `FetchCountryInfo` of fetch_country.go.  `metaR` is the outcome of
the GET to the REST-countries metadata API, whose body decodes (or
fails to decode) into `[]map[string]interface{}`; `citiesR` is the
outcome of the dependent cities call. -/
def FetchCountryInfo (countryCode : String) (limit : Int)
    (metaR : HttpResult (Except String (List JObj)))
    (citiesR : HttpResult (BodyRead CitiesApiResponse)) :
    Except String CountryInfoResponse :=
  match metaR with
  | .fail e => .error ("failed to fetch country data: " ++ e)
  | .ok resp =>
    if resp.status ≠ 200 then
      .error ("API returned status " ++ toString resp.status)
    else
      match resp.body with
      | .error e => .error ("failed to decode country API response: " ++ e)
      | .ok data =>
        match data with
        | [] => .error ("no data found for country code: " ++ countryCode)
        | country :: _ =>
          match extractString country ["name", "common"] with
          | none => .error "country name not found"
          | some name =>
            let cities :=
              match FetchCities name limit citiesR with
              | .error _ => ["City data not available"]
              | .ok cs => cs
            .ok {
              name := name
              continent := extractRegion country
              population := extractPopulation country
              languages := extractLanguages country
              borders := extractStringArray country "borders"
              flag := extractFlag country
              capital := extractCapital country
              cities := cities
            }

/-! ## utils population file (`FetchCountryName`, `FetchPopulationData`) -/

/-- One entry of the population history (`{year, value}`). -/
structure PopulationRecord where
  year : Int
  value : Int

/-- `PopulationResponse`: mean plus the filtered year/value pairs. -/
structure PopulationResponse where
  mean : Int
  values : List PopulationRecord

/-- The population API response, reduced to the fields the code reads:
the error flag, the message, and `data.populationCounts` (`none`
models a Go `nil` slice: field absent or JSON `null`). -/
structure PopApiResponse where
  error : Bool
  msg : String
  populationCounts : Option (List PopulationRecord)

/-- `FetchCountryName`: the body decodes into a list of records of
which only `name.common` is read, modelled as the list of those common
names (Go's zero value `""` standing for an absent field). -/
def FetchCountryName (iso2 : String)
    (r : HttpResult (BodyRead (List String))) : Except String String :=
  match r with
  | .fail e => .error ("failed to fetch country name: " ++ e)
  | .ok resp =>
    if resp.status ≠ 200 then
      .error ("country API returned status " ++ toString resp.status)
    else
      match resp.body with
      | .readErr e => .error ("failed to read country API response: " ++ e)
      | .decodeErr e => .error ("failed to decode country API response: " ++ e)
      | .decoded commons =>
        match commons with
        | [] => .error ("invalid country name received for ISO2 code: " ++ iso2)
        | c :: _ =>
          if c = "" then
            .error ("invalid country name received for ISO2 code: " ++ iso2)
          else .ok c

/-- Two's-complement wraparound of a signed 64-bit value: `wrap64 n`
is the representative of `n` modulo 2^64 lying in [-2^63, 2^63).  Go's
`int` is 64 bits wide on the platforms concerned, and its `+` wraps. -/
def wrap64 (n : Int) : Int :=
  (n + 9223372036854775808) % 18446744073709551616 - 9223372036854775808

/-- The filtering loop of `FetchPopulationData`: returns
(`filteredCounts`, `total`, `count`), preserving the order of the
history.  The source's `total += entry.Value` is wrapping 64-bit
addition, modelled by `wrap64` at every step; wrapping per step in
this right-to-left recursion agrees with the source's left-to-right
accumulation because wrapped addition depends only on the addends
modulo 2^64 (`wrap64_add_right` below).  `count++` is left exact: it
is bounded by the length of the decoded Go slice, which cannot exceed
2^63 - 1, so it never wraps on any deliverable history. -/
def popFilterLoop (startYear endYear : Int) :
    List PopulationRecord → List PopulationRecord × Int × Int
  | [] => ([], 0, 0)
  | entry :: rest =>
    let r := popFilterLoop startYear endYear rest
    if (startYear = 0 ∨ startYear ≤ entry.year) ∧ (endYear = 0 ∨ entry.year ≤ endYear)
    then (entry :: r.1, wrap64 (entry.value + r.2.1), r.2.2 + 1)
    else r

/-- `FetchPopulationData`.  `nameR` is the outcome of the dependent
`FetchCountryName` call, `popR` the outcome of the POST to the
population API.  (`json.Marshal` of a struct holding one string never
returns an error, so that branch is not reachable.)  Go `total / count`
on `int` truncates toward zero (`Int.tdiv`). -/
def FetchPopulationData (iso2 : String) (startYear endYear : Int)
    (nameR : HttpResult (BodyRead (List String)))
    (popR : HttpResult (BodyRead PopApiResponse)) :
    Except String PopulationResponse :=
  if startYear > endYear ∧ endYear ≠ 0 then
    .error ("invalid year range: startYear (" ++ toString startYear ++
      ") cannot be greater than endYear (" ++ toString endYear ++ ")")
  else
    match FetchCountryName iso2 nameR with
    | .error e => .error ("failed to get country name: " ++ e)
    | .ok countryName =>
      match popR with
      | .fail e => .error ("failed to send request: " ++ e)
      | .ok resp =>
        if resp.status ≠ 200 then
          .error ("population API returned status " ++ toString resp.status)
        else
          match resp.body with
          | .readErr e => .error ("failed to read Population API response: " ++ e)
          | .decodeErr e => .error ("failed to decode Population API response: " ++ e)
          | .decoded api =>
            if api.error then
              .error ("population API returned an error: " ++ api.msg)
            else
              match api.populationCounts with
              | none => .error ("no population data found for country: " ++ countryName)
              | some populationData =>
                let fc := popFilterLoop startYear endYear populationData
                let mean := if fc.2.2 > 0 then Int.tdiv fc.2.1 fc.2.2 else 0
                .ok { mean := mean, values := fc.1 }

/-! ## Handler-level validation and error classification -/

/-- The country-code check of both handlers:
`regexp.MatchString("^[A-Z]{2}$", code)` — exactly two characters, both
ASCII uppercase letters. -/
def isISO2 (s : String) : Bool :=
  match s.data with
  | [a, b] => a.isUpper && b.isUpper
  | _ => false

/-- The `limit` (city count) parsing of `CountryInfoHandler`: default
10 when the query parameter is absent (`Get` returns `""`), otherwise
`strconv.Atoi` and the result must be positive; `.error` is the HTTP
400 rejection. -/
def parseCityLimit (queryLimit : String) : Except String Int :=
  if queryLimit = "" then .ok 10
  else
    match atoi queryLimit with
    | none => .error "invalid limit parameter. Must be a positive integer."
    | some n =>
      if n ≤ 0 then .error "invalid limit parameter. Must be a positive integer."
      else .ok n

/-- The `len(years) == 2` dispatch of `PopulationHandler`'s year-range
parsing: exactly two `-`-separated parts, both must `Atoi`-parse, and
the pair must satisfy `1900 <= startYear` and
`endYear <= currentYear`. -/
def parseYearRangeParts (currentYear : Int) : List String → Except String (Int × Int)
  | [a, b] =>
    match atoi a, atoi b with
    | some startYear, some endYear =>
      if startYear < 1900 ∨ endYear > currentYear then
        .error "Year range out of bounds. Use years between 1900 and the current year."
      else .ok (startYear, endYear)
    | _, _ => .error "Invalid limit format. Use startYear-endYear with numeric values."
  | _ => .error "Invalid limit format. Use startYear-endYear."

/-- The `limit` (year range) parsing of `PopulationHandler`: absent
means `(0, 0)` (no filtering); otherwise split on `-` and validate;
`.error` is the HTTP 400 rejection. -/
def parseYearRange (limitParam : String) (currentYear : Int) :
    Except String (Int × Int) :=
  if limitParam = "" then .ok (0, 0)
  else parseYearRangeParts currentYear (goSplitDash limitParam)

/-- `PopulationHandler`'s error differentiation: 404 when the error
text contains "not found", 502 when it contains "API request failed",
500 otherwise. -/
def populationErrorStatus (errMsg : String) : Nat :=
  if strContains errMsg "not found" then 404
  else if strContains errMsg "API request failed" then 502
  else 500

/-- `CountryInfoHandler`'s error differentiation (same classification
logic as the population handler). -/
def countryInfoErrorStatus (errMsg : String) : Nat :=
  if strContains errMsg "not found" then 404
  else if strContains errMsg "API request failed" then 502
  else 500

/-- The HTTP status produced by `PopulationHandler` for a request with
path segment `rawCode` and `limit` query value `limitParam` (empty
string when absent), at calendar year `currentYear`, when the two
potential upstream interactions would have the given outcomes. -/
def PopulationHandlerStatus (rawCode limitParam : String) (currentYear : Int)
    (nameR : HttpResult (BodyRead (List String)))
    (popR : HttpResult (BodyRead PopApiResponse)) : Nat :=
  if rawCode = "" then 400
  else
    let countryCode := goToUpper rawCode
    if !isISO2 countryCode then 400
    else
      match parseYearRange limitParam currentYear with
      | .error _ => 400
      | .ok (startYear, endYear) =>
        match FetchPopulationData countryCode startYear endYear nameR popR with
        | .error e => populationErrorStatus e
        | .ok _ => 200

/-- `checkAPIHealth` of the status handler.  `statusText` stands for
Go's `http.StatusText` table; `r` is the outcome of the bounded-timeout
GET (a timeout surfaces as a transport error, i.e. `HttpResult.fail`).
The function is total: it always returns a status string. -/
def checkAPIHealth (statusText : Nat → String) (r : HttpResult Unit) : String :=
  match r with
  | .fail _ => "FAILED"
  | .ok resp =>
    if resp.status ≠ 200 then "ERROR " ++ statusText resp.status
    else "200"

/-! ## Supporting lemmas -/

theorem fetchCities_length_le (countryName : String) (limit : Int)
    (r : HttpResult (BodyRead CitiesApiResponse)) (cs : List String)
    (hlim : 0 ≤ limit) (h : FetchCities countryName limit r = .ok cs) :
    (cs.length : Int) ≤ limit := by
  unfold FetchCities at h
  split at h
  · exact absurd h (by simp)
  · split at h
    · exact absurd h (by simp)
    · split at h
      · exact absurd h (by simp)
      · exact absurd h (by simp)
      · split at h
        · exact absurd h (by simp)
        · split at h
          · injection h with h
            subst h
            rw [List.length_take]
            have h1 : (limit.toNat : Int) = limit := Int.toNat_of_nonneg hlim
            omega
          · injection h with h
            subst h
            omega

theorem parseCityLimit_pos (q : String) (limit : Int)
    (h : parseCityLimit q = .ok limit) : 1 ≤ limit := by
  unfold parseCityLimit at h
  split at h
  · injection h with h; omega
  · split at h
    · exact absurd h (by simp)
    · split at h
      · exact absurd h (by simp)
      · injection h with h
        omega

theorem fetchCountryInfo_cities_cases (countryCode : String) (limit : Int)
    (metaR : HttpResult (Except String (List JObj)))
    (citiesR : HttpResult (BodyRead CitiesApiResponse))
    (info : CountryInfoResponse)
    (h : FetchCountryInfo countryCode limit metaR citiesR = .ok info) :
    info.cities = ["City data not available"] ∨
      FetchCities info.name limit citiesR = .ok info.cities := by
  unfold FetchCountryInfo at h
  split at h
  · exact absurd h (by simp)
  · split at h
    · exact absurd h (by simp)
    · split at h
      · exact absurd h (by simp)
      · split at h
        · exact absurd h (by simp)
        · split at h
          · exact absurd h (by simp)
          · rename_i name heq
            injection h with h
            subst h
            dsimp only
            rcases hfc : FetchCities name limit citiesR with e | cs
            · exact Or.inl rfl
            · exact Or.inr rfl

/-! ## C2 -/

/-- C2: for every limit accepted by the handler's limit validation
(default 10 when the query parameter is absent), a successful
`FetchCountryInfo` returns at most `limit` cities — also when the city
fetch failed and the placeholder was substituted. -/
theorem countryInfo_cities_within_limit :
    parseCityLimit "" = .ok 10 ∧
    ∀ (q countryCode : String) (limit : Int)
      (metaR : HttpResult (Except String (List JObj)))
      (citiesR : HttpResult (BodyRead CitiesApiResponse))
      (info : CountryInfoResponse),
      parseCityLimit q = .ok limit →
      FetchCountryInfo countryCode limit metaR citiesR = .ok info →
      (info.cities.length : Int) ≤ limit := by
  refine ⟨rfl, ?_⟩
  intro q countryCode limit metaR citiesR info hq hinfo
  have hpos := parseCityLimit_pos q limit hq
  rcases fetchCountryInfo_cities_cases countryCode limit metaR citiesR info hinfo with hc | hc
  · rw [hc]; simpa using hpos
  · exact fetchCities_length_le info.name limit citiesR info.cities (by omega) hc

/-- Witness for C2 at a concrete request: no limit parameter (default
10), a metadata payload for Norway, and three cities upstream. -/
theorem countryInfo_cities_within_limit_witness :
    parseCityLimit "" = .ok 10 ∧
    FetchCountryInfo "NO" 10
        (.ok ⟨200, .ok [[("name", .jObj [("common", .jStr "Norway")])]]⟩)
        (.ok ⟨200, .decoded ⟨false, ["Abelvaer", "Adalsbruk", "Adland"]⟩⟩) =
      .ok { name := "Norway", continent := "Unknown", population := 0,
            languages := [], borders := [], flag := "", capital := "N/A",
            cities := ["Abelvaer", "Adalsbruk", "Adland"] } ∧
    ((["Abelvaer", "Adalsbruk", "Adland"].length : Int) ≤ 10) :=
  ⟨rfl, rfl,
    countryInfo_cities_within_limit.2 "" "NO" 10
      (.ok ⟨200, .ok [[("name", .jObj [("common", .jStr "Norway")])]]⟩)
      (.ok ⟨200, .decoded ⟨false, ["Abelvaer", "Adalsbruk", "Adland"]⟩⟩)
      { name := "Norway", continent := "Unknown", population := 0,
        languages := [], borders := [], flag := "", capital := "N/A",
        cities := ["Abelvaer", "Adalsbruk", "Adland"] }
      rfl rfl⟩

/-! ## C6 -/

/-- C6: the health probe is a total function returning exactly "200"
on HTTP 200, "ERROR <reason>" on any other status, and "FAILED" on a
transport failure or timeout. -/
theorem checkAPIHealth_spec (statusText : Nat → String) :
    (∀ e, checkAPIHealth statusText (.fail e) = "FAILED") ∧
    (∀ b, checkAPIHealth statusText (.ok ⟨200, b⟩) = "200") ∧
    (∀ s b, s ≠ 200 → checkAPIHealth statusText (.ok ⟨s, b⟩) = "ERROR " ++ statusText s) := by
  refine ⟨fun e => rfl, fun b => rfl, fun s b hs => ?_⟩
  simp [checkAPIHealth, hs]

/-- Witness for C6 with the StatusText entry for 404. -/
theorem checkAPIHealth_spec_witness :
    (404 : Nat) ≠ 200 ∧
    checkAPIHealth (fun _ => "Not Found") (.ok ⟨404, ()⟩) = "ERROR Not Found" ∧
    checkAPIHealth (fun _ => "Not Found") (.fail "connection refused") = "FAILED" ∧
    checkAPIHealth (fun _ => "Not Found") (.ok ⟨200, ()⟩) = "200" :=
  ⟨by decide,
    (checkAPIHealth_spec (fun _ => "Not Found")).2.2 404 () (by decide),
    (checkAPIHealth_spec (fun _ => "Not Found")).1 "connection refused",
    (checkAPIHealth_spec (fun _ => "Not Found")).2.1 ()⟩

/-! ## C9 -/

/-- C9: the year-range validator accepts an absent value as the
unbounded window (0,0); rejects a value that does not split on `-`
into exactly two parts, or whose parts do not both Atoi-parse, or with
start < 1900 or end > the current year; and accepts the parsed pair
otherwise. -/
theorem yearRange_validator_spec (currentYear : Int) :
    parseYearRange "" currentYear = .ok (0, 0) ∧
    ∀ v : String, v ≠ "" →
      ((goSplitDash v).length ≠ 2 → ∃ m, parseYearRange v currentYear = .error m) ∧
      ∀ a b, goSplitDash v = [a, b] →
        ((atoi a = none ∨ atoi b = none) → ∃ m, parseYearRange v currentYear = .error m) ∧
        ∀ x y, atoi a = some x → atoi b = some y →
          ((x < 1900 ∨ y > currentYear) → ∃ m, parseYearRange v currentYear = .error m) ∧
          (1900 ≤ x → y ≤ currentYear → parseYearRange v currentYear = .ok (x, y)) := by
  refine ⟨rfl, ?_⟩
  intro v hv
  constructor
  · intro hlen
    unfold parseYearRange
    rw [if_neg hv]
    rcases hsplit : goSplitDash v with _ | ⟨a, _ | ⟨b, _ | ⟨c, rest⟩⟩⟩
    · exact ⟨_, rfl⟩
    · exact ⟨_, rfl⟩
    · rw [hsplit] at hlen; exact absurd rfl hlen
    · exact ⟨_, rfl⟩
  · intro a b hsplit
    have hred : parseYearRange v currentYear =
        parseYearRangeParts currentYear [a, b] := by
      unfold parseYearRange
      rw [if_neg hv, hsplit]
    constructor
    · intro hnone
      rw [hred]
      simp only [parseYearRangeParts]
      rcases hx : atoi a with _ | x <;> rcases hy : atoi b with _ | y
      · exact ⟨_, rfl⟩
      · exact ⟨_, rfl⟩
      · exact ⟨_, rfl⟩
      · rcases hnone with h | h
        · rw [hx] at h; exact absurd h (by simp)
        · rw [hy] at h; exact absurd h (by simp)
    · intro x y hx hy
      have hstep : parseYearRangeParts currentYear [a, b] =
          if x < 1900 ∨ y > currentYear then
            Except.error "Year range out of bounds. Use years between 1900 and the current year."
          else Except.ok (x, y) := by
        simp only [parseYearRangeParts]
        rw [hx, hy]
      constructor
      · intro hout
        rw [hred, hstep, if_pos hout]
        exact ⟨_, rfl⟩
      · intro h1900 hcy
        rw [hred, hstep, if_neg (by omega)]

/-- Witness for C9: the accepted window 2000–2010 at current year
2026, with each hypothesis discharged concretely. -/
theorem yearRange_validator_spec_witness :
    ("2000-2010" : String) ≠ "" ∧
    goSplitDash "2000-2010" = ["2000", "2010"] ∧
    atoi "2000" = some 2000 ∧ atoi "2010" = some 2010 ∧
    parseYearRange "2000-2010" 2026 = .ok (2000, 2010) :=
  ⟨by decide, rfl, rfl, rfl,
    ((((yearRange_validator_spec 2026).2 "2000-2010" (by decide)).2
      "2000" "2010" rfl).2 2000 2010 rfl rfl).2 (by decide) (by decide)⟩

/-! ## C4 -/

/-- C4 (documents a code bug): a validated request with both bounds
given, in range, and startYear > endYear is rejected by
`FetchPopulationData` before any upstream interaction (the result does
not depend on either upstream outcome), but the handler classifies the
error message as HTTP 500, not the documented 400. -/
theorem startYear_gt_endYear_gives_500 :
    ∀ (nameR : HttpResult (BodyRead (List String)))
      (popR : HttpResult (BodyRead PopApiResponse)),
      FetchPopulationData "NO" 2020 2010 nameR popR =
        .error "invalid year range: startYear (2020) cannot be greater than endYear (2010)" ∧
      parseYearRange "2020-2010" 2026 = .ok (2020, 2010) ∧
      PopulationHandlerStatus "NO" "2020-2010" 2026 nameR popR = 500 := by
  intro nameR popR
  exact ⟨rfl, rfl, rfl⟩

/-! ## C5 -/

/-- C5 (documents a code bug): when the population upstream responds
200 with no error flag but no populationCounts array, the fetch fails
with the message "no population data found for country: ...", which
the handler classifies as HTTP 500 — not the documented 404 — since
the message does not contain the substring "not found". -/
theorem missing_history_gives_500 :
    FetchPopulationData "NO" 0 0 (.ok ⟨200, .decoded ["Norway"]⟩)
        (.ok ⟨200, .decoded ⟨false, "", none⟩⟩) =
      .error "no population data found for country: Norway" ∧
    strContains "no population data found for country: Norway" "not found" = false ∧
    strContains "no population data found for country: Norway" "API request failed" = false ∧
    PopulationHandlerStatus "NO" "" 2026 (.ok ⟨200, .decoded ["Norway"]⟩)
        (.ok ⟨200, .decoded ⟨false, "", none⟩⟩) = 500 :=
  ⟨rfl, rfl, rfl, rfl⟩

/-! ## C1 -/

/-- The inclusive year window of the specification: a bound equal to 0
imposes no constraint on its side. -/
def inWindow (startYear endYear year : Int) : Prop :=
  (startYear = 0 ∨ startYear ≤ year) ∧ (endYear = 0 ∨ year ≤ endYear)

instance (startYear endYear year : Int) : Decidable (inWindow startYear endYear year) := by
  unfold inWindow
  infer_instance

/-- Wrapped addition only depends on the second addend modulo 2^64,
so per-step wrapping equals wrapping the whole sum. -/
theorem wrap64_add_right (a b : Int) : wrap64 (a + wrap64 b) = wrap64 (a + b) := by
  unfold wrap64
  omega

/-- `wrap64` is the identity on values representable in a signed
64-bit integer. -/
theorem wrap64_eq_self {n : Int} (h1 : -9223372036854775808 ≤ n)
    (h2 : n < 9223372036854775808) : wrap64 n = n := by
  unfold wrap64
  omega

/-- The population filtering loop computes the window filter, the
wrapped 64-bit sum of the kept values, and their count. -/
theorem popFilterLoop_spec (startYear endYear : Int) (l : List PopulationRecord) :
    (popFilterLoop startYear endYear l).1 =
      l.filter (fun r => decide (inWindow startYear endYear r.year)) ∧
    (popFilterLoop startYear endYear l).2.1 =
      wrap64 (((popFilterLoop startYear endYear l).1.map PopulationRecord.value).sum) ∧
    (popFilterLoop startYear endYear l).2.2 =
      ((popFilterLoop startYear endYear l).1.length : Int) := by
  induction l with
  | nil => exact ⟨rfl, rfl, rfl⟩
  | cons r t ih =>
    obtain ⟨ih1, ih2, ih3⟩ := ih
    by_cases hc : (startYear = 0 ∨ startYear ≤ r.year) ∧ (endYear = 0 ∨ r.year ≤ endYear)
    · have hdec : decide (inWindow startYear endYear r.year) = true :=
        decide_eq_true hc
      simp only [popFilterLoop, if_pos hc, List.filter_cons, hdec, if_pos trivial]
      refine ⟨by rw [ih1], ?_, ?_⟩
      · simp only [List.map_cons, List.sum_cons]
        rw [ih2, wrap64_add_right]
      · simp only [List.length_cons]
        rw [ih3, ih1]
        push_cast
        ring
    · have hdec : decide (inWindow startYear endYear r.year) = false :=
        decide_eq_false hc
      simp only [popFilterLoop, if_neg hc, List.filter_cons, hdec]
      simpa using ⟨ih1, ih2, ih3⟩

/-- The int64 sum overflow observed by `populationReport_overflow_counterexample`:
a two-record history whose values each fit a signed 64-bit integer but
whose sum does not. -/
def overflowHist : List PopulationRecord :=
  [⟨2000, 4611686018427387904⟩, ⟨2001, 4611686018427387904⟩]

/-- C1 counterexample: a deliverable history of two non-negative
values of 2^62 with the unbounded window makes the program's wrapping
64-bit sum overflow to -2^63, so the returned mean is -2^62 while the
floor of sum/count is +2^62 — the claim as stated is false. -/
theorem populationReport_overflow_counterexample :
    (overflowHist.all fun r => decide (0 ≤ r.value)) = true ∧
    FetchPopulationData "NO" 0 0 (.ok ⟨200, .decoded ["Norway"]⟩)
        (.ok ⟨200, .decoded ⟨false, "", some overflowHist⟩⟩) =
      .ok { mean := -4611686018427387904, values := overflowHist } ∧
    Int.fdiv ((overflowHist.map PopulationRecord.value).sum) overflowHist.length =
      4611686018427387904 ∧
    (-4611686018427387904 : Int) ≠ 4611686018427387904 :=
  ⟨rfl, rfl, rfl, by decide⟩

/-- C1 (amended): for every upstream-provided history with
non-negative values and every window with startYear <= endYear (0
meaning unbounded on a side), provided the sum of the in-window values
stays below 2^63 (so the program's wrapping 64-bit accumulation does
not overflow), a successful population fetch returns exactly the
in-window records in upstream order, with the floor of sum/count as
the mean (0 for an empty filtered set). -/
theorem populationReport_filter_and_mean
    (iso2 : String) (startYear endYear : Int)
    (nameR : HttpResult (BodyRead (List String))) (cname msg : String)
    (hist : List PopulationRecord)
    (hname : FetchCountryName iso2 nameR = .ok cname)
    (hwin : startYear ≤ endYear ∨ endYear = 0)
    (hvals : ∀ r ∈ hist, 0 ≤ r.value)
    (hsum : (((hist.filter (fun r => decide (inWindow startYear endYear r.year))).map
        PopulationRecord.value).sum) < 9223372036854775808) :
    ∃ rep : PopulationResponse,
      FetchPopulationData iso2 startYear endYear nameR
          (.ok ⟨200, .decoded ⟨false, msg, some hist⟩⟩) = .ok rep ∧
      rep.values = hist.filter (fun r => decide (inWindow startYear endYear r.year)) ∧
      (rep.values ≠ [] →
        rep.mean = Int.fdiv ((rep.values.map PopulationRecord.value).sum) rep.values.length) ∧
      (rep.values = [] → rep.mean = 0) := by
  obtain ⟨h1, h2, h3⟩ := popFilterLoop_spec startYear endYear hist
  have hred : FetchPopulationData iso2 startYear endYear nameR
      (.ok ⟨200, .decoded ⟨false, msg, some hist⟩⟩) =
      .ok { mean := if (popFilterLoop startYear endYear hist).2.2 > 0 then
                      Int.tdiv (popFilterLoop startYear endYear hist).2.1
                        (popFilterLoop startYear endYear hist).2.2
                    else 0,
            values := (popFilterLoop startYear endYear hist).1 } := by
    unfold FetchPopulationData
    rw [if_neg (by omega), hname]
    rfl
  refine ⟨_, hred, h1, ?_, ?_⟩
  · intro hne
    have hne' : (popFilterLoop startYear endYear hist).1 ≠ [] := hne
    have hlen : 0 < (popFilterLoop startYear endYear hist).1.length :=
      List.length_pos.mpr hne'
    have hnn : 0 ≤ ((popFilterLoop startYear endYear hist).1.map PopulationRecord.value).sum := by
      apply List.sum_nonneg
      intro x hx
      rw [List.mem_map] at hx
      obtain ⟨r, hr, rfl⟩ := hx
      rw [h1] at hr
      exact hvals r (List.mem_of_mem_filter hr)
    have hlt : ((popFilterLoop startYear endYear hist).1.map PopulationRecord.value).sum <
        9223372036854775808 := by
      rw [h1]
      exact hsum
    have hw : wrap64 (((popFilterLoop startYear endYear hist).1.map
          PopulationRecord.value).sum) =
        ((popFilterLoop startYear endYear hist).1.map PopulationRecord.value).sum :=
      wrap64_eq_self (by omega) hlt
    simp only
    rw [if_pos (by omega), h2, hw, h3,
      Int.tdiv_eq_ediv hnn (Int.natCast_nonneg _), Int.fdiv_eq_ediv _ (Int.natCast_nonneg _)]
  · intro hemp
    have hemp' : (popFilterLoop startYear endYear hist).1 = [] := hemp
    have hz : (popFilterLoop startYear endYear hist).2.2 = 0 := by
      rw [h3, hemp']
      rfl
    simp only
    rw [if_neg (by omega)]

/-- Witness for C1: the 2010–2015 window over a four-entry history
whose first entry lies outside the window. -/
theorem populationReport_filter_and_mean_witness :
    FetchCountryName "IN" (.ok ⟨200, .decoded ["India"]⟩) = .ok "India" ∧
    ((2010 : Int) ≤ 2015 ∨ (2015 : Int) = 0) ∧
    (∀ r ∈ ([⟨2005, 5⟩, ⟨2010, 10⟩, ⟨2011, 11⟩, ⟨2015, 16⟩] : List PopulationRecord),
      0 ≤ r.value) ∧
    ((((([⟨2005, 5⟩, ⟨2010, 10⟩, ⟨2011, 11⟩, ⟨2015, 16⟩] : List PopulationRecord).filter
        (fun r => decide (inWindow 2010 2015 r.year))).map
        PopulationRecord.value).sum) < 9223372036854775808) ∧
    (∃ rep : PopulationResponse,
      FetchPopulationData "IN" 2010 2015 (.ok ⟨200, .decoded ["India"]⟩)
          (.ok ⟨200, .decoded ⟨false, "",
            some [⟨2005, 5⟩, ⟨2010, 10⟩, ⟨2011, 11⟩, ⟨2015, 16⟩]⟩⟩) = .ok rep ∧
      rep.values = List.filter (fun r => decide (inWindow 2010 2015 r.year))
        [⟨2005, 5⟩, ⟨2010, 10⟩, ⟨2011, 11⟩, ⟨2015, 16⟩] ∧
      (rep.values ≠ [] →
        rep.mean = Int.fdiv ((rep.values.map PopulationRecord.value).sum) rep.values.length) ∧
      (rep.values = [] → rep.mean = 0)) :=
  ⟨rfl, by decide, by decide, by decide,
    populationReport_filter_and_mean "IN" 2010 2015 (.ok ⟨200, .decoded ["India"]⟩)
      "India" "" [⟨2005, 5⟩, ⟨2010, 10⟩, ⟨2011, 11⟩, ⟨2015, 16⟩]
      rfl (by decide) (by decide) (by decide)⟩

/-! ## Successful metadata assembly (shared by C7, C8, C10) -/

/-- Shape of a successful `FetchCountryInfo`: a 200 metadata response
decoding to a non-empty array whose first object has a usable common
name assembles the record from the defensive field extractions, with
the cities either fetched or replaced by the placeholder. -/
theorem fetchCountryInfo_ok_shape (countryCode : String) (limit : Int)
    (country : JObj) (rest : List JObj)
    (citiesR : HttpResult (BodyRead CitiesApiResponse)) (nm : String)
    (hname : extractString country ["name", "common"] = some nm) :
    FetchCountryInfo countryCode limit (.ok ⟨200, .ok (country :: rest)⟩) citiesR =
      .ok { name := nm,
            continent := extractRegion country,
            population := extractPopulation country,
            languages := extractLanguages country,
            borders := extractStringArray country "borders",
            flag := extractFlag country,
            capital := extractCapital country,
            cities := match FetchCities nm limit citiesR with
                      | .error _ => ["City data not available"]
                      | .ok cs => cs } := by
  simp only [FetchCountryInfo]
  rw [hname]
  rfl

/-! ## C7 -/

/-- C7: with a usable common name, assembly never fails, and each
optional field falls back to its default when missing or wrong-typed:
region "Unknown", capital "N/A", flag "", empty languages and
borders. -/
theorem countryInfo_defensive_defaults (countryCode : String) (limit : Int)
    (country : JObj) (rest : List JObj)
    (citiesR : HttpResult (BodyRead CitiesApiResponse)) (nm : String)
    (hname : extractString country ["name", "common"] = some nm) :
    ∃ info : CountryInfoResponse,
      FetchCountryInfo countryCode limit (.ok ⟨200, .ok (country :: rest)⟩) citiesR =
        .ok info ∧
      info.name = nm ∧
      ((∀ s, jLookup country "region" ≠ some (.jStr s)) → info.continent = "Unknown") ∧
      ((∀ s l, jLookup country "capital" ≠ some (.jArr (.jStr s :: l))) →
        info.capital = "N/A") ∧
      (extractString country ["flags", "svg"] = none → info.flag = "") ∧
      ((∀ m, jLookup country "languages" ≠ some (.jObj m)) → info.languages = []) ∧
      ((∀ l, jLookup country "borders" ≠ some (.jArr l)) → info.borders = []) := by
  refine ⟨_, fetchCountryInfo_ok_shape countryCode limit country rest citiesR nm hname,
    rfl, ?_, ?_, ?_, ?_, ?_⟩
  · intro hreg
    simp only
    unfold extractRegion
    rcases h : jLookup country "region" with _ | v
    · rfl
    · cases v with
      | jStr s => exact absurd h (hreg s)
      | jNull => rfl
      | jBool b => rfl
      | jNum n => rfl
      | jArr l => rfl
      | jObj m => rfl
  · intro hcap
    simp only
    unfold extractCapital
    rcases h : jLookup country "capital" with _ | v
    · rfl
    · cases v with
      | jArr l =>
        cases l with
        | nil => rfl
        | cons c tl =>
          cases c with
          | jStr s => exact absurd h (hcap s tl)
          | jNull => rfl
          | jBool b => rfl
          | jNum n => rfl
          | jArr l2 => rfl
          | jObj m => rfl
      | jNull => rfl
      | jBool b => rfl
      | jNum n => rfl
      | jStr s => rfl
      | jObj m => rfl
  · intro hflag
    simp only
    unfold extractFlag
    rw [hflag]
    rfl
  · intro hlang
    simp only
    unfold extractLanguages
    rcases h : jLookup country "languages" with _ | v
    · rfl
    · cases v with
      | jObj m => exact absurd h (hlang m)
      | jNull => rfl
      | jBool b => rfl
      | jNum n => rfl
      | jStr s => rfl
      | jArr l => rfl
  · intro hbord
    simp only
    unfold extractStringArray
    rcases h : jLookup country "borders" with _ | v
    · rfl
    · cases v with
      | jArr l => exact absurd h (hbord l)
      | jNull => rfl
      | jBool b => rfl
      | jNum n => rfl
      | jStr s => rfl
      | jObj m => rfl

/-- Witness for C7: a metadata object holding only the common name, so
every optional field takes its default. -/
theorem countryInfo_defensive_defaults_witness :
    extractString [("name", JValue.jObj [("common", JValue.jStr "Norway")])]
      ["name", "common"] = some "Norway" ∧
    ∃ info : CountryInfoResponse,
      FetchCountryInfo "NO" 10
          (.ok ⟨200, .ok [[("name", JValue.jObj [("common", JValue.jStr "Norway")])]]⟩)
          (.ok ⟨200, .decoded ⟨false, ["Oslo"]⟩⟩) = .ok info ∧
      info.name = "Norway" ∧
      ((∀ s, jLookup [("name", JValue.jObj [("common", JValue.jStr "Norway")])] "region" ≠
          some (.jStr s)) → info.continent = "Unknown") ∧
      ((∀ s l, jLookup [("name", JValue.jObj [("common", JValue.jStr "Norway")])] "capital" ≠
          some (.jArr (.jStr s :: l))) → info.capital = "N/A") ∧
      (extractString [("name", JValue.jObj [("common", JValue.jStr "Norway")])]
          ["flags", "svg"] = none → info.flag = "") ∧
      ((∀ m, jLookup [("name", JValue.jObj [("common", JValue.jStr "Norway")])] "languages" ≠
          some (.jObj m)) → info.languages = []) ∧
      ((∀ l, jLookup [("name", JValue.jObj [("common", JValue.jStr "Norway")])] "borders" ≠
          some (.jArr l)) → info.borders = []) :=
  ⟨rfl, countryInfo_defensive_defaults "NO" 10
    [("name", JValue.jObj [("common", JValue.jStr "Norway")])] []
    (.ok ⟨200, .decoded ⟨false, ["Oslo"]⟩⟩) "Norway" rfl⟩

/-! ## C8 -/

/-- C8: when the metadata fetch succeeds but the city fetch fails for
any reason, `FetchCountryInfo` still succeeds, substituting exactly
the one-element placeholder for the cities and assembling every other
field from the metadata payload. -/
theorem cityFailure_yields_placeholder (countryCode : String) (limit : Int)
    (country : JObj) (rest : List JObj)
    (citiesR : HttpResult (BodyRead CitiesApiResponse)) (nm e : String)
    (hname : extractString country ["name", "common"] = some nm)
    (hcities : FetchCities nm limit citiesR = .error e) :
    FetchCountryInfo countryCode limit (.ok ⟨200, .ok (country :: rest)⟩) citiesR =
      .ok { name := nm,
            continent := extractRegion country,
            population := extractPopulation country,
            languages := extractLanguages country,
            borders := extractStringArray country "borders",
            flag := extractFlag country,
            capital := extractCapital country,
            cities := ["City data not available"] } := by
  rw [fetchCountryInfo_ok_shape countryCode limit country rest citiesR nm hname, hcities]

/-- Witness for C8: cities upstream answers 500, metadata is fine. -/
theorem cityFailure_yields_placeholder_witness :
    extractString [("name", JValue.jObj [("common", JValue.jStr "Norway")])]
      ["name", "common"] = some "Norway" ∧
    FetchCities "Norway" 10 (.ok ⟨500, .decoded ⟨false, []⟩⟩) =
      .error "cities API returned status 500" ∧
    FetchCountryInfo "NO" 10
        (.ok ⟨200, .ok [[("name", JValue.jObj [("common", JValue.jStr "Norway")])]]⟩)
        (.ok ⟨500, .decoded ⟨false, []⟩⟩) =
      .ok { name := "Norway", continent := "Unknown", population := 0,
            languages := [], borders := [], flag := "", capital := "N/A",
            cities := ["City data not available"] } :=
  ⟨rfl, rfl,
    cityFailure_yields_placeholder "NO" 10
      [("name", JValue.jObj [("common", JValue.jStr "Norway")])] []
      (.ok ⟨500, .decoded ⟨false, []⟩⟩) "Norway"
      "cities API returned status 500" rfl rfl⟩

/-! ## C10 -/

/-- C10: a missing or non-numeric `population` field does not fail the
assembly; the resulting population is 0 (a default the spec leaves
unstated). -/
theorem countryInfo_population_default (countryCode : String) (limit : Int)
    (country : JObj) (rest : List JObj)
    (citiesR : HttpResult (BodyRead CitiesApiResponse)) (nm : String)
    (hname : extractString country ["name", "common"] = some nm) :
    ∃ info : CountryInfoResponse,
      FetchCountryInfo countryCode limit (.ok ⟨200, .ok (country :: rest)⟩) citiesR =
        .ok info ∧
      ((∀ n : Int, jLookup country "population" ≠ some (.jNum n)) →
        info.population = 0) := by
  refine ⟨_, fetchCountryInfo_ok_shape countryCode limit country rest citiesR nm hname, ?_⟩
  intro hpop
  simp only
  unfold extractPopulation
  rcases h : jLookup country "population" with _ | v
  · rfl
  · cases v with
    | jNum n => exact absurd h (hpop n)
    | jNull => rfl
    | jBool b => rfl
    | jStr s => rfl
    | jArr l => rfl
    | jObj m => rfl

/-- Witness for C10: the `population` field holds a string, so the
assembled population is 0. -/
theorem countryInfo_population_default_witness :
    extractString [("name", JValue.jObj [("common", JValue.jStr "Norway")]),
        ("population", JValue.jStr "many")] ["name", "common"] = some "Norway" ∧
    ∃ info : CountryInfoResponse,
      FetchCountryInfo "NO" 10
          (.ok ⟨200, .ok [[("name", JValue.jObj [("common", JValue.jStr "Norway")]),
            ("population", JValue.jStr "many")]]⟩)
          (.ok ⟨200, .decoded ⟨false, ["Oslo"]⟩⟩) = .ok info ∧
      ((∀ n : Int, jLookup [("name", JValue.jObj [("common", JValue.jStr "Norway")]),
          ("population", JValue.jStr "many")] "population" ≠ some (.jNum n)) →
        info.population = 0) :=
  ⟨rfl, countryInfo_population_default "NO" 10
    [("name", JValue.jObj [("common", JValue.jStr "Norway")]),
      ("population", JValue.jStr "many")] []
    (.ok ⟨200, .decoded ⟨false, ["Oslo"]⟩⟩) "Norway" rfl⟩

/-! ## C3: occurrence of "API request failed" in gateway error text -/

/-- The classification substring of the handlers' 502 branch. -/
def patChars : List Char := "API request failed".data

/-- A string free of the 502-classification substring. -/
def cleanStr (s : String) : Prop :=
  ¬ patChars <:+: s.data

/-- `charsContains` decides contiguous containment. -/
theorem charsContains_iff (s pat : List Char) :
    charsContains s pat = true ↔ pat <:+: s := by
  induction s with
  | nil => simp [charsContains, List.isEmpty_iff, List.infix_nil]
  | cons c t ih =>
    simp [charsContains, List.infix_cons_iff, ih, List.isPrefixOf_iff_prefix]

/-- An occurrence of `p` in `a ++ b` lies in `a`, lies in `b`, or
splits into a suffix of `a` followed by a prefix of `b`. -/
theorem infix_append_cases (p a b : List Char) (h : p <:+: a ++ b) :
    p <:+: a ∨ p <:+: b ∨ ∃ x y, p = x ++ y ∧ x <:+ a ∧ y <+: b := by
  obtain ⟨s, t, hst⟩ := h
  have hst' : a ++ b = s ++ (p ++ t) := by rw [← hst, List.append_assoc]
  rcases List.append_eq_append_iff.mp hst' with ⟨x, hx1, hx2⟩ | ⟨x, hx1, hx2⟩
  · refine Or.inr (Or.inl ⟨x, t, ?_⟩)
    rw [hx2, List.append_assoc]
  · rcases List.append_eq_append_iff.mp hx2 with ⟨y, hy1, hy2⟩ | ⟨y, hy1, hy2⟩
    · refine Or.inl ⟨s, y, ?_⟩
      rw [hx1, hy1, List.append_assoc]
    · refine Or.inr (Or.inr ⟨x, y, hy1, ⟨s, hx1.symm⟩, ⟨t, hy2.symm⟩⟩)

/-- A message template is safe when it does not contain the pattern
and no nonempty strict prefix of the pattern is one of its suffixes
(so no occurrence can start inside the template and continue into an
appended dynamic string). -/
def safeTemplate (t : String) : Bool :=
  !charsContains t.data patChars &&
  (List.range patChars.length).all fun i =>
    i == 0 || !(patChars.take i).isSuffixOf t.data

theorem safeTemplate_props (t : String) (h : safeTemplate t = true) :
    ¬ patChars <:+: t.data ∧
    ∀ i, 0 < i → i < patChars.length → ¬ (patChars.take i <:+ t.data) := by
  rw [safeTemplate, Bool.and_eq_true] at h
  obtain ⟨h1, h2⟩ := h
  rw [Bool.not_eq_true'] at h1
  constructor
  · intro hin
    rw [← charsContains_iff] at hin
    rw [h1] at hin
    cases hin
  · intro i hi0 hilen hsuf
    rw [List.all_eq_true] at h2
    have h3 := h2 i (List.mem_range.mpr hilen)
    rw [Bool.or_eq_true] at h3
    rcases h3 with hh | hh
    · rw [beq_iff_eq] at hh
      omega
    · rw [Bool.not_eq_true'] at hh
      rw [← List.isSuffixOf_iff_suffix] at hsuf
      rw [hh] at hsuf
      cases hsuf

/-- Appending any clean dynamic string to a safe template yields a
clean message. -/
theorem cleanStr_append (t s : String) (ht : safeTemplate t = true)
    (hs : cleanStr s) : cleanStr (t ++ s) := by
  obtain ⟨ht1, ht2⟩ := safeTemplate_props t ht
  intro h
  rw [String.data_append] at h
  rcases infix_append_cases patChars t.data s.data h with h1 | h1 | ⟨x, y, hxy, hxa, hyb⟩
  · exact ht1 h1
  · exact hs h1
  · rcases Nat.eq_zero_or_pos x.length with hx0 | hxpos
    · rw [List.length_eq_zero] at hx0
      subst hx0
      rw [List.nil_append] at hxy
      subst hxy
      exact hs hyb.isInfix
    · have hxlen : x.length ≤ patChars.length := by
        rw [hxy, List.length_append]
        omega
      rcases eq_or_lt_of_le hxlen with heq | hlt
      · have hy0 : y = [] := by
          rw [hxy, List.length_append] at heq
          rw [← List.length_eq_zero]
          omega
        subst hy0
        rw [List.append_nil] at hxy
        subst hxy
        exact ht1 hxa.isInfix
      · have hx : patChars.take x.length = x := by
          rw [hxy]
          exact List.take_left x y
        exact ht2 x.length hxpos hlt (by rw [hx]; exact hxa)

/-- A string whose characters avoid some character of the pattern is
clean; used for decimal renderings, which consist of digits and `-`
while the pattern contains `q`. -/
theorem cleanStr_of_q_free (s : String) (h : 'q' ∉ s.data) : cleanStr s := by
  intro hin
  exact h (hin.sublist.subset (show 'q' ∈ patChars by decide))

theorem digitChar_ne_q : ∀ m, m < 16 → Nat.digitChar m ≠ 'q' := by decide

theorem toDigitsCore_q_free : ∀ (fuel n : Nat) (acc : List Char),
    (∀ c ∈ acc, c ≠ 'q') → ∀ c ∈ Nat.toDigitsCore 10 fuel n acc, c ≠ 'q' := by
  intro fuel
  induction fuel with
  | zero => intro n acc hacc; simp only [Nat.toDigitsCore]; exact hacc
  | succ f ih =>
    intro n acc hacc
    simp only [Nat.toDigitsCore]
    have hd : ∀ c ∈ (n % 10).digitChar :: acc, c ≠ 'q' := by
      intro c hc
      rw [List.mem_cons] at hc
      rcases hc with rfl | hc
      · exact digitChar_ne_q _ (Nat.lt_of_lt_of_le (Nat.mod_lt _ (by decide)) (by decide))
      · exact hacc _ hc
    split
    · exact hd
    · exact ih _ _ hd

theorem natRepr_q_free (n : Nat) : 'q' ∉ (Nat.repr n).data := by
  intro hmem
  exact toDigitsCore_q_free (n + 1) n [] (by simp) 'q' hmem rfl

/-- The decimal rendering of a natural number (an HTTP status in the
messages below) is clean. -/
theorem cleanStr_natRepr (n : Nat) : cleanStr (toString n) :=
  cleanStr_of_q_free _ (natRepr_q_free n)

theorem intRepr_q_free (i : Int) : 'q' ∉ (toString i).data := by
  show 'q' ∉ (Int.repr i).data
  match i with
  | Int.ofNat m => exact natRepr_q_free m
  | Int.negSucc m =>
    simp only [Int.repr]
    rw [String.data_append]
    intro hmem
    rcases List.mem_append.mp hmem with h | h
    · exact absurd h (by decide)
    · exact natRepr_q_free _ h

/-- A concrete message template free of the pattern is clean. -/
theorem cleanStr_concrete (t : String)
    (h : charsContains t.data patChars = false) : cleanStr t := by
  intro hin
  rw [← charsContains_iff] at hin
  rw [h] at hin
  cases hin

/-- The start>end validation message is clean: its fixed parts and the
decimal renderings of the two years contain no `q`, while the pattern
does. -/
theorem cleanStr_yearRangeMsg (s e : Int) :
    cleanStr ("invalid year range: startYear (" ++ toString s ++
      ") cannot be greater than endYear (" ++ toString e ++ ")") := by
  apply cleanStr_of_q_free
  intro hmem
  rw [String.data_append, String.data_append, String.data_append,
    String.data_append] at hmem
  rcases List.mem_append.mp hmem with hmem | h
  · rcases List.mem_append.mp hmem with hmem | h
    · rcases List.mem_append.mp hmem with hmem | h
      · rcases List.mem_append.mp hmem with h | h
        · exact absurd h (by decide)
        · exact intRepr_q_free s h
      · exact absurd h (by decide)
    · exact intRepr_q_free e h
  · exact absurd h (by decide)

/-- Cleanliness of a decoded-or-failed body (`FetchCountryInfo`'s
metadata decode). -/
def cleanDecode {α : Type} : Except String α → Prop
  | .error e => cleanStr e
  | .ok _ => True

/-- Cleanliness of a read/decode outcome, with `f` constraining the
strings inside a successfully decoded value. -/
def cleanBody {α : Type} (f : α → Prop) : BodyRead α → Prop
  | .readErr e => cleanStr e
  | .decodeErr e => cleanStr e
  | .decoded v => f v

/-- Cleanliness of an HTTP outcome: the transport error text and the
body strings are free of the pattern (a status code's decimal
rendering is always free of it). -/
def cleanHttp {β : Type} (f : β → Prop) : HttpResult β → Prop
  | .fail e => cleanStr e
  | .ok resp => f resp.body

theorem fetchCountryName_error_clean {f : List String → Prop} (iso2 : String)
    (r : HttpResult (BodyRead (List String))) (m : String)
    (hiso : cleanStr iso2) (hr : cleanHttp (cleanBody f) r)
    (h : FetchCountryName iso2 r = .error m) : cleanStr m := by
  rcases r with e | ⟨status, body⟩
  · simp only [FetchCountryName] at h
    injection h with h
    subst h
    exact cleanStr_append _ _ rfl hr
  · rcases body with e | e | commons
    · simp only [FetchCountryName] at h
      split at h
      · injection h with h
        subst h
        exact cleanStr_append _ _ rfl (cleanStr_natRepr _)
      · injection h with h
        subst h
        exact cleanStr_append _ _ rfl hr
    · simp only [FetchCountryName] at h
      split at h
      · injection h with h
        subst h
        exact cleanStr_append _ _ rfl (cleanStr_natRepr _)
      · injection h with h
        subst h
        exact cleanStr_append _ _ rfl hr
    · rcases commons with _ | ⟨c, rest⟩
      · simp only [FetchCountryName] at h
        split at h
        · injection h with h
          subst h
          exact cleanStr_append _ _ rfl (cleanStr_natRepr _)
        · injection h with h
          subst h
          exact cleanStr_append _ _ rfl hiso
      · simp only [FetchCountryName] at h
        split at h
        · injection h with h
          subst h
          exact cleanStr_append _ _ rfl (cleanStr_natRepr _)
        · split at h
          · injection h with h
            subst h
            exact cleanStr_append _ _ rfl hiso
          · exact absurd h (by simp)

theorem fetchCountryName_ok_clean (iso2 : String)
    (r : HttpResult (BodyRead (List String))) (nm : String)
    (hr : cleanHttp (cleanBody fun commons => ∀ c ∈ commons, cleanStr c) r)
    (h : FetchCountryName iso2 r = .ok nm) : cleanStr nm := by
  rcases r with e | ⟨status, body⟩
  · exact absurd h (by simp [FetchCountryName])
  · rcases body with e | e | commons
    · simp only [FetchCountryName] at h
      split at h
      · exact absurd h (by simp)
      · exact absurd h (by simp)
    · simp only [FetchCountryName] at h
      split at h
      · exact absurd h (by simp)
      · exact absurd h (by simp)
    · rcases commons with _ | ⟨c, rest⟩
      · simp only [FetchCountryName] at h
        split at h
        · exact absurd h (by simp)
        · exact absurd h (by simp)
      · simp only [FetchCountryName] at h
        split at h
        · exact absurd h (by simp)
        · split at h
          · exact absurd h (by simp)
          · injection h with h
            subst h
            exact hr _ (List.mem_cons_self _ _)

theorem fetchCities_error_clean {f : CitiesApiResponse → Prop}
    (countryName : String) (limit : Int)
    (r : HttpResult (BodyRead CitiesApiResponse)) (m : String)
    (hn : cleanStr countryName) (hr : cleanHttp (cleanBody f) r)
    (h : FetchCities countryName limit r = .error m) : cleanStr m := by
  rcases r with e | ⟨status, body⟩
  · simp only [FetchCities] at h
    injection h with h
    subst h
    exact cleanStr_append _ _ rfl hr
  · rcases body with e | e | api
    · simp only [FetchCities] at h
      split at h
      · injection h with h
        subst h
        exact cleanStr_append _ _ rfl (cleanStr_natRepr _)
      · injection h with h
        subst h
        exact cleanStr_append _ _ rfl hr
    · simp only [FetchCities] at h
      split at h
      · injection h with h
        subst h
        exact cleanStr_append _ _ rfl (cleanStr_natRepr _)
      · injection h with h
        subst h
        exact cleanStr_append _ _ rfl hr
    · simp only [FetchCities] at h
      split at h
      · injection h with h
        subst h
        exact cleanStr_append _ _ rfl (cleanStr_natRepr _)
      · split at h
        · injection h with h
          subst h
          exact cleanStr_append _ _ rfl hn
        · split at h
          · exact absurd h (by simp)
          · exact absurd h (by simp)

theorem fetchCountryInfo_error_clean (countryCode : String) (limit : Int)
    (metaR : HttpResult (Except String (List JObj)))
    (citiesR : HttpResult (BodyRead CitiesApiResponse)) (m : String)
    (hcode : cleanStr countryCode) (hmeta : cleanHttp cleanDecode metaR)
    (h : FetchCountryInfo countryCode limit metaR citiesR = .error m) :
    cleanStr m := by
  rcases metaR with e | ⟨status, body⟩
  · simp only [FetchCountryInfo] at h
    injection h with h
    subst h
    exact cleanStr_append _ _ rfl hmeta
  · rcases body with e | data
    · simp only [FetchCountryInfo] at h
      split at h
      · injection h with h
        subst h
        exact cleanStr_append _ _ rfl (cleanStr_natRepr _)
      · injection h with h
        subst h
        exact cleanStr_append _ _ rfl hmeta
    · rcases data with _ | ⟨country, rest⟩
      · simp only [FetchCountryInfo] at h
        split at h
        · injection h with h
          subst h
          exact cleanStr_append _ _ rfl (cleanStr_natRepr _)
        · injection h with h
          subst h
          exact cleanStr_append _ _ rfl hcode
      · simp only [FetchCountryInfo] at h
        split at h
        · injection h with h
          subst h
          exact cleanStr_append _ _ rfl (cleanStr_natRepr _)
        · split at h
          · injection h with h
            subst h
            exact cleanStr_concrete _ rfl
          · exact absurd h (by simp)

theorem fetchPopulationData_error_clean (iso2 : String) (startYear endYear : Int)
    (nameR : HttpResult (BodyRead (List String)))
    (popR : HttpResult (BodyRead PopApiResponse)) (m : String)
    (hiso : cleanStr iso2)
    (hname : cleanHttp (cleanBody fun commons => ∀ c ∈ commons, cleanStr c) nameR)
    (hpop : cleanHttp (cleanBody fun api : PopApiResponse => cleanStr api.msg) popR)
    (h : FetchPopulationData iso2 startYear endYear nameR popR = .error m) :
    cleanStr m := by
  rcases hn : FetchCountryName iso2 nameR with e | cname
  · simp only [FetchPopulationData, hn] at h
    split at h
    · injection h with h
      subst h
      exact cleanStr_yearRangeMsg _ _
    · injection h with h
      subst h
      exact cleanStr_append _ _ rfl
        (fetchCountryName_error_clean iso2 nameR e hiso hname hn)
  · have hcn : cleanStr cname := fetchCountryName_ok_clean iso2 nameR cname hname hn
    rcases popR with e | ⟨status, body⟩
    · simp only [FetchPopulationData, hn] at h
      split at h
      · injection h with h
        subst h
        exact cleanStr_yearRangeMsg _ _
      · injection h with h
        subst h
        exact cleanStr_append _ _ rfl hpop
    · rcases body with e | e | api
      · simp only [FetchPopulationData, hn] at h
        split at h
        · injection h with h
          subst h
          exact cleanStr_yearRangeMsg _ _
        · split at h
          · injection h with h
            subst h
            exact cleanStr_append _ _ rfl (cleanStr_natRepr _)
          · injection h with h
            subst h
            exact cleanStr_append _ _ rfl hpop
      · simp only [FetchPopulationData, hn] at h
        split at h
        · injection h with h
          subst h
          exact cleanStr_yearRangeMsg _ _
        · split at h
          · injection h with h
            subst h
            exact cleanStr_append _ _ rfl (cleanStr_natRepr _)
          · injection h with h
            subst h
            exact cleanStr_append _ _ rfl hpop
      · simp only [FetchPopulationData, hn] at h
        split at h
        · injection h with h
          subst h
          exact cleanStr_yearRangeMsg _ _
        · split at h
          · injection h with h
            subst h
            exact cleanStr_append _ _ rfl (cleanStr_natRepr _)
          · split at h
            · injection h with h
              subst h
              exact cleanStr_append _ _ rfl hpop
            · split at h
              · injection h with h
                subst h
                exact cleanStr_append _ _ rfl hcn
              · exact absurd h (by simp)

/-- C3 counterexample: an upstream-supplied error message containing
"API request failed" flows verbatim into the gateway error text, and
the population handler then classifies it as 502 — so the claim's "the
502 branch is unreachable" is false as stated. -/
theorem apiRequestFailed_reachable :
    FetchPopulationData "NO" 0 0 (.ok ⟨200, .decoded ["Norway"]⟩)
        (.ok ⟨200, .decoded ⟨true, "API request failed", none⟩⟩) =
      .error "population API returned an error: API request failed" ∧
    strContains "population API returned an error: API request failed"
      "API request failed" = true ∧
    populationErrorStatus "population API returned an error: API request failed" = 502 ∧
    PopulationHandlerStatus "NO" "" 2026 (.ok ⟨200, .decoded ["Norway"]⟩)
        (.ok ⟨200, .decoded ⟨true, "API request failed", none⟩⟩) = 502 :=
  ⟨rfl, rfl, rfl, rfl⟩

/-- C3 (amended): none of the gateway's fixed message templates
contains "API request failed"; an error returned by any of the four
gateway functions is free of that substring whenever the
environment-supplied strings embedded in it (transport error text,
body read/decode error text, the upstream error message, the country
identifier and the upstream-provided country name) are free of it.
Hence the handlers' 502 branch is reachable only when the upstream or
transport layer itself injects that text. -/
theorem gateway_errors_clean :
    (∀ (iso2 : String) (r : HttpResult (BodyRead (List String))) (m : String),
      cleanStr iso2 → cleanHttp (cleanBody fun _ : List String => True) r →
      FetchCountryName iso2 r = .error m → cleanStr m) ∧
    (∀ (countryName : String) (limit : Int)
      (r : HttpResult (BodyRead CitiesApiResponse)) (m : String),
      cleanStr countryName → cleanHttp (cleanBody fun _ : CitiesApiResponse => True) r →
      FetchCities countryName limit r = .error m → cleanStr m) ∧
    (∀ (countryCode : String) (limit : Int)
      (metaR : HttpResult (Except String (List JObj)))
      (citiesR : HttpResult (BodyRead CitiesApiResponse)) (m : String),
      cleanStr countryCode → cleanHttp cleanDecode metaR →
      FetchCountryInfo countryCode limit metaR citiesR = .error m → cleanStr m) ∧
    (∀ (iso2 : String) (startYear endYear : Int)
      (nameR : HttpResult (BodyRead (List String)))
      (popR : HttpResult (BodyRead PopApiResponse)) (m : String),
      cleanStr iso2 →
      cleanHttp (cleanBody fun commons => ∀ c ∈ commons, cleanStr c) nameR →
      cleanHttp (cleanBody fun api : PopApiResponse => cleanStr api.msg) popR →
      FetchPopulationData iso2 startYear endYear nameR popR = .error m → cleanStr m) :=
  ⟨fun iso2 r m hi hr h => fetchCountryName_error_clean iso2 r m hi hr h,
   fun n l r m hn hr h => fetchCities_error_clean n l r m hn hr h,
   fun c l mr cr m hc hm h => fetchCountryInfo_error_clean c l mr cr m hc hm h,
   fun i s e nr pr m hi hnm hp h => fetchPopulationData_error_clean i s e nr pr m hi hnm hp h⟩

/-- Witness for the amended C3: a doubly failed population request
whose transport error texts are clean produces a clean error
message. -/
theorem gateway_errors_clean_witness :
    cleanStr "NO" ∧
    cleanHttp (cleanBody fun commons : List String => ∀ c ∈ commons, cleanStr c)
      (.fail "connection refused") ∧
    cleanHttp (cleanBody fun api : PopApiResponse => cleanStr api.msg)
      (.fail "dial tcp: connection refused") ∧
    FetchPopulationData "NO" 0 0 (.fail "connection refused")
        (.fail "dial tcp: connection refused") =
      .error "failed to get country name: failed to fetch country name: connection refused" ∧
    cleanStr "failed to get country name: failed to fetch country name: connection refused" := by
  have h1 : cleanStr "NO" := by unfold cleanStr; decide
  have h2 : cleanStr "connection refused" := by unfold cleanStr; decide
  have h3 : cleanStr "dial tcp: connection refused" := by unfold cleanStr; decide
  refine ⟨h1, h2, h3, rfl, ?_⟩
  exact gateway_errors_clean.2.2.2 "NO" 0 0 (.fail "connection refused")
    (.fail "dial tcp: connection refused") _ h1 h2 h3 rfl
